import Mathlib

/-!
Verification of the token-resolution state machine in
`pkg/token/execCredentialPlugin.go` (kubelogin).

The Go code is embedded shallowly: the collaborators of the plugin
(token cache, OAuth configuration resolution, refresher construction,
refresher, token provider, credential writer) are modelled as an oracle
environment `Env` supplying the result each call would produce, and
`execCredentialPlugin.Do` is translated into a pure Lean function that
returns the overall `Except` outcome together with a `Trace` of the
effects it performed (cache reads, cache writes, refresher calls,
provider calls, emitted credentials).  Machine time is a `Nat` number of
seconds passed explicitly.
-/

namespace Kubelogin

/-- Login methods of kubelogin (`pkg/token/options.go`, not under `src/`;
the constructor set is taken from the constants the source file and the
spec configuration section name). -/
inductive LoginMethod where
  | DeviceCodeLogin
  | InteractiveLogin
  | ServicePrincipalLogin
  | ROPCLogin
  | MSILogin
  | AzureCLILogin
  | WorkloadIdentityLogin
deriving DecidableEq, Repr

/-- The fields of `Options` used by `New` and `Do` in
`execCredentialPlugin.go`. -/
structure Options where
  loginMethod : LoginMethod
  clientID : String
  serverID : String
  tenantID : String
  environment : String
  isLegacy : Bool
  tokenCacheFile : String
deriving DecidableEq, Repr

/-- The `adal.Token` fields that `Do` inspects.  `expiresOn` is an
absolute timestamp in seconds; the Go zero value is the empty string or
zero in every field. -/
structure Token where
  accessToken : String
  refreshToken : String
  resource : String
  expiresOn : Nat
deriving DecidableEq, Repr

/-- The Go zero value of `adal.Token`, which `TokenCache.Read` returns as
the cache-miss sentinel. -/
def Token.zero : Token :=
  { accessToken := "", refreshToken := "", resource := "", expiresOn := 0 }

/-- Modelled from the spec: `adal.Token.IsZero` is library code absent
from `src/`.  The spec invariant reads: a Token is considered present
only if it has a non-empty access token and a non-zero expiration; an
absent Token is the cache-miss sentinel.  Hence the token is zero when
the access token is empty or the expiration is zero. -/
def Token.IsZero (t : Token) : Bool :=
  t.accessToken == "" || t.expiresOn == 0

/-- Modelled from the spec: `adal.Token.WillExpireIn` is library code
absent from `src/`.  Per the spec, the token is not about to expire when
`now + ExpirationDelta < expiresOn`; so it will expire within duration
`d` of `now` exactly when `expiresOn <= now + d`. -/
def Token.WillExpireIn (t : Token) (d now : Nat) : Bool :=
  t.expiresOn ≤ now + d

/-- `expirationDelta` from `execCredentialPlugin.go`: 60 seconds. -/
def expirationDelta : Nat := 60

/-- Error values are the human-readable strings Go builds with
`fmt.Errorf`; `%s` interpolation of a string is concatenation. -/
abbrev Err := String

/-- Oracle environment: the outcome each collaborator call would
produce.  Each field corresponds to one external call site in `Do`. -/
structure Env where
  /-- Result of `tokenCache.Read(tokenCacheFile)`. -/
  cacheRead : Except Err Token
  /-- Result of `getOAuthConfig(environment, tenantID, isLegacy)`
  (defined elsewhere in the repository, outside `src/`); only its
  success or failure matters to `Do`. -/
  oauthConfig : Except Err Unit
  /-- Result of constructing the refresher via `p.refresher(...)`. -/
  refresherCtor : Except Err Unit
  /-- Result of `refresher.Token()`. -/
  refresherToken : Except Err Token
  /-- Result of `provider.Token()`. -/
  providerToken : Except Err Token
  /-- Result of `tokenCache.Write(tokenCacheFile, t)`: `none` is
  success, `some e` is failure with error `e`. -/
  cacheWrite : Token → Option Err
  /-- Result of `execCredentialWriter.Write(t, os.Stdout)`. -/
  writerWrite : Token → Option Err

/-- Trace of the observable effects of one `Do` execution. -/
structure Trace where
  cacheReads : Nat := 0
  cacheWrites : List Token := []
  oauthConfigCalls : Nat := 0
  refresherCtorCalls : Nat := 0
  refresherCalls : Nat := 0
  providerCalls : Nat := 0
  emitted : List Token := []
deriving DecidableEq, Repr

/-- The plugin state built by `New`: the options and the
`disableTokenCache` flag (the collaborators live in `Env`). -/
structure execCredentialPlugin where
  o : Options
  disableTokenCache : Bool
deriving DecidableEq, Repr

/-- `New` (lines 31-52): the cache is disabled exactly for the
service-principal, managed-identity, workload-identity and Azure-CLI
login methods. -/
def New (o : Options) : execCredentialPlugin :=
  { o := o
    disableTokenCache :=
      o.loginMethod == LoginMethod.ServicePrincipalLogin ||
      o.loginMethod == LoginMethod.MSILogin ||
      o.loginMethod == LoginMethod.WorkloadIdentityLogin ||
      o.loginMethod == LoginMethod.AzureCLILogin }

/-- The target audience computed at lines 88-91: the server ID, with the
legacy marker `spn:` prepended when the legacy flag is set. -/
def targetAudienceOf (o : Options) : String :=
  if o.isLegacy then "spn:" ++ o.serverID else o.serverID

/-- Final step of every successful path: hand the token to the
credential writer (`execCredentialWriter.Write(token, os.Stdout)`) and
return its result. -/
def emitCredential (env : Env) (t : Token) (tr : Trace) : Except Err Unit × Trace :=
  let tr := { tr with emitted := tr.emitted ++ [t] }
  match env.writerWrite t with
  | some e => (Except.error e, tr)
  | none => (Except.ok (), tr)

/-- Lines 135-149 of `Do`: acquire a token from the full-login provider,
persist it when caching is enabled, and emit it.  Every branch of `Do`
that does not return earlier falls through to this code. -/
def fullLogin (p : execCredentialPlugin) (env : Env) (tr : Trace) :
    Except Err Unit × Trace :=
  let tr := { tr with providerCalls := tr.providerCalls + 1 }
  match env.providerToken with
  | Except.error e => (Except.error ("failed to get token: " ++ e), tr)
  | Except.ok token =>
    if p.disableTokenCache then
      emitCredential env token tr
    else
      let tr := { tr with cacheWrites := tr.cacheWrites ++ [token] }
      match env.cacheWrite token with
      | some e =>
        (Except.error
          ("unable to write to token cache: " ++ p.o.tokenCacheFile ++ ", err: " ++ e), tr)
      | none => emitCredential env token tr

/-- Lines 87-133 of `Do`: audience check, fast path on an unexpired
matching token, refresh attempt with fall-through, then `fullLogin`. -/
def resolveWithToken (p : execCredentialPlugin) (env : Env) (now : Nat)
    (token : Token) (tr : Trace) : Except Err Unit × Trace :=
  let targetAudience := targetAudienceOf p.o
  if token.resource = targetAudience ∧ token.IsZero = false then
    if token.WillExpireIn expirationDelta now = false then
      emitCredential env token tr
    else if token.refreshToken ≠ "" then
      let tr := { tr with oauthConfigCalls := tr.oauthConfigCalls + 1 }
      match env.oauthConfig with
      | Except.error e => (Except.error ("unable to get oAuthConfig: " ++ e), tr)
      | Except.ok _ =>
        let tr := { tr with refresherCtorCalls := tr.refresherCtorCalls + 1 }
        match env.refresherCtor with
        | Except.error e => (Except.error ("failed to get refresher: " ++ e), tr)
        | Except.ok _ =>
          let tr := { tr with refresherCalls := tr.refresherCalls + 1 }
          match env.refresherToken with
          | Except.error _ =>
            -- refresh failed: logged, tokenRefreshed stays false, fall
            -- through to full login
            fullLogin p env tr
          | Except.ok newToken =>
            let tr := { tr with cacheWrites := tr.cacheWrites ++ [newToken] }
            match env.cacheWrite newToken with
            | some e => (Except.error ("failed to write to store: " ++ e), tr)
            | none => emitCredential env newToken tr
    else
      -- no refresh token: fall through to full login
      fullLogin p env tr
  else
    fullLogin p env tr

/-- `execCredentialPlugin.Do` (lines 74-150), as a function of the
plugin, the oracle environment and the current time. -/
def execCredentialPlugin.Do (p : execCredentialPlugin) (env : Env) (now : Nat) :
    Except Err Unit × Trace :=
  if p.disableTokenCache then
    resolveWithToken p env now Token.zero {}
  else
    match env.cacheRead with
    | Except.error e =>
      (Except.error
        ("unable to read from token cache: " ++ p.o.tokenCacheFile ++ ", err: " ++ e),
       { cacheReads := 1 })
    | Except.ok token => resolveWithToken p env now token { cacheReads := 1 }

/-! Concrete sample data, used to witness the hypotheses of the claim
theorems on executable inputs. -/

/-- Sample options: device-code login (cache enabled), server ID `R`. -/
def demoOptions : Options :=
  { loginMethod := LoginMethod.DeviceCodeLogin
    clientID := "client"
    serverID := "R"
    tenantID := "tenant"
    environment := "AzurePublicCloud"
    isLegacy := false
    tokenCacheFile := "cache.json" }

/-- A cached token for resource `R` expiring at time 1000. -/
def demoToken : Token :=
  { accessToken := "at0", refreshToken := "rt0", resource := "R", expiresOn := 1000 }

/-- The token the refresher would return. -/
def demoRefreshedToken : Token :=
  { accessToken := "at1", refreshToken := "rt1", resource := "R", expiresOn := 5000 }

/-- The token the full-login provider would return. -/
def demoProviderToken : Token :=
  { accessToken := "at2", refreshToken := "rt2", resource := "R", expiresOn := 6000 }

/-- A fully successful oracle environment around `demoToken`. -/
def demoEnv : Env :=
  { cacheRead := Except.ok demoToken
    oauthConfig := Except.ok ()
    refresherCtor := Except.ok ()
    refresherToken := Except.ok demoRefreshedToken
    providerToken := Except.ok demoProviderToken
    cacheWrite := fun _ => none
    writerWrite := fun _ => none }

/-- The plugin built from the sample options. -/
def demoPlugin : execCredentialPlugin := New demoOptions

/-- A cached token issued for a different resource `S`. -/
def demoTokenOtherResource : Token :=
  { accessToken := "at3", refreshToken := "rt3", resource := "S", expiresOn := 1000 }

/-- Environment whose cached token was issued for another resource. -/
def demoEnvMismatch : Env :=
  { demoEnv with cacheRead := Except.ok demoTokenOtherResource }

/-- Environment whose refresher call fails. -/
def demoEnvRefreshFail : Env :=
  { demoEnv with refresherToken := Except.error "refresh boom" }

/-- Environment whose cache read fails. -/
def demoEnvReadFail : Env :=
  { demoEnv with cacheRead := Except.error "corrupt" }

/-- Environment whose cache writes always fail. -/
def demoEnvWriteFail : Env :=
  { demoEnv with cacheWrite := fun _ => some "disk full" }

/-- A cached token with an empty access token (absent per the presence
invariant) but a non-empty refresh token. -/
def demoTokenAbsent : Token :=
  { accessToken := "", refreshToken := "rt4", resource := "R", expiresOn := 1000 }

/-- Environment whose cached token fails the presence predicate. -/
def demoEnvAbsent : Env :=
  { demoEnv with cacheRead := Except.ok demoTokenAbsent }

/-- Sample options with a cache-disabled login method. -/
def demoOptionsMSI : Options :=
  { demoOptions with loginMethod := LoginMethod.MSILogin }

/-! Helper lemmas about the pieces of `Do`. -/

/-- The trace returned by `emitCredential` does not depend on the writer
outcome: it is the incoming trace with the token appended to `emitted`. -/
theorem emitCredential_snd (env : Env) (t : Token) (tr : Trace) :
    (emitCredential env t tr).2 = { tr with emitted := tr.emitted ++ [t] } := by
  unfold emitCredential
  cases env.writerWrite t <;> rfl

/-- When the credential writer succeeds, `emitCredential` returns `ok`. -/
theorem emitCredential_fst_ok (env : Env) (t : Token) (tr : Trace)
    (h : env.writerWrite t = none) : (emitCredential env t tr).1 = Except.ok () := by
  unfold emitCredential
  rw [h]

/-- With caching enabled and a successful cache read, `Do` is the
resolution continuation on the token read, with one cache read traced. -/
theorem Do_cache_ok (p : execCredentialPlugin) (env : Env) (now : Nat) (t : Token)
    (hdc : p.disableTokenCache = false) (hread : env.cacheRead = Except.ok t) :
    p.Do env now = resolveWithToken p env now t { cacheReads := 1 } := by
  unfold execCredentialPlugin.Do
  rw [hdc, hread]
  simp

/-- On a matching, present, unexpired token, `resolveWithToken` takes the
fast path: it emits the cached token directly. -/
theorem resolveWithToken_fast_path (p : execCredentialPlugin) (env : Env) (now : Nat)
    (t : Token) (tr : Trace)
    (haud : t.resource = targetAudienceOf p.o) (hz : t.IsZero = false)
    (hw : t.WillExpireIn expirationDelta now = false) :
    resolveWithToken p env now t tr = emitCredential env t tr := by
  unfold resolveWithToken
  rw [if_pos ⟨haud, hz⟩, if_pos hw]

/-- On an audience mismatch, `resolveWithToken` goes straight to full
login with the trace untouched. -/
theorem resolveWithToken_mismatch (p : execCredentialPlugin) (env : Env) (now : Nat)
    (t : Token) (tr : Trace) (hmis : t.resource ≠ targetAudienceOf p.o) :
    resolveWithToken p env now t tr = fullLogin p env tr := by
  unfold resolveWithToken
  rw [if_neg (fun h => hmis h.1)]

/-- On the zero (cache-miss sentinel) token, `resolveWithToken` goes
straight to full login. -/
theorem resolveWithToken_zero (p : execCredentialPlugin) (env : Env) (now : Nat)
    (tr : Trace) :
    resolveWithToken p env now Token.zero tr = fullLogin p env tr := by
  unfold resolveWithToken
  rw [if_neg]
  intro h
  simp [Token.IsZero, Token.zero] at h

/-- On a matching, present, expiring token carrying a refresh token,
when config resolution and refresher construction succeed but the
refresher call fails, `resolveWithToken` falls through to full login,
with the three refresh-path calls traced. -/
theorem resolveWithToken_refresh_error (p : execCredentialPlugin) (env : Env)
    (now : Nat) (t : Token) (tr : Trace) (e : Err)
    (haud : t.resource = targetAudienceOf p.o) (hz : t.IsZero = false)
    (hw : t.WillExpireIn expirationDelta now = true)
    (hrt : t.refreshToken ≠ "")
    (hcfg : env.oauthConfig = Except.ok ())
    (hctor : env.refresherCtor = Except.ok ())
    (hfail : env.refresherToken = Except.error e) :
    resolveWithToken p env now t tr =
      fullLogin p env
        { tr with oauthConfigCalls := tr.oauthConfigCalls + 1,
                  refresherCtorCalls := tr.refresherCtorCalls + 1,
                  refresherCalls := tr.refresherCalls + 1 } := by
  unfold resolveWithToken
  rw [if_pos ⟨haud, hz⟩, if_neg (by simp [hw]), if_pos hrt, hcfg, hctor, hfail]

/-- On a matching, present, expiring token carrying a refresh token,
when the whole refresh attempt succeeds and the cache write succeeds,
`resolveWithToken` emits the refreshed token after writing it. -/
theorem resolveWithToken_refresh_ok (p : execCredentialPlugin) (env : Env)
    (now : Nat) (t : Token) (tr : Trace) (newTok : Token)
    (haud : t.resource = targetAudienceOf p.o) (hz : t.IsZero = false)
    (hw : t.WillExpireIn expirationDelta now = true)
    (hrt : t.refreshToken ≠ "")
    (hcfg : env.oauthConfig = Except.ok ())
    (hctor : env.refresherCtor = Except.ok ())
    (hok : env.refresherToken = Except.ok newTok)
    (hwrite : env.cacheWrite newTok = none) :
    resolveWithToken p env now t tr =
      emitCredential env newTok
        { tr with oauthConfigCalls := tr.oauthConfigCalls + 1,
                  refresherCtorCalls := tr.refresherCtorCalls + 1,
                  refresherCalls := tr.refresherCalls + 1,
                  cacheWrites := tr.cacheWrites ++ [newTok] } := by
  unfold resolveWithToken
  rw [if_pos ⟨haud, hz⟩, if_neg (by simp [hw]), if_pos hrt, hcfg, hctor, hok]
  simp [hwrite]

/-- `fullLogin` does not read any refresh-path oracle, so replacing the
refresher outcome in the environment leaves it unchanged. -/
theorem fullLogin_env_refresherToken (p : execCredentialPlugin) (env : Env)
    (x : Except Err Token) (tr : Trace) :
    fullLogin p { env with refresherToken := x } tr = fullLogin p env tr := rfl

/-- `fullLogin` does not read the cache, so replacing the cache-read
outcome in the environment leaves it unchanged. -/
theorem fullLogin_env_cacheRead (p : execCredentialPlugin) (env : Env)
    (x : Except Err Token) (tr : Trace) :
    fullLogin p { env with cacheRead := x } tr = fullLogin p env tr := rfl

/-- `fullLogin` calls the provider exactly once. -/
theorem fullLogin_providerCalls (p : execCredentialPlugin) (env : Env) (tr : Trace) :
    (fullLogin p env tr).2.providerCalls = tr.providerCalls + 1 := by
  unfold fullLogin
  cases env.providerToken with
  | error e => rfl
  | ok tok =>
    cases hd : p.disableTokenCache with
    | true => simp [hd, emitCredential_snd]
    | false =>
      cases hcw : env.cacheWrite tok with
      | none => simp [hd, hcw, emitCredential_snd]
      | some e => simp [hd, hcw]

/-- When the provider, the cache write on its token (if caching is on)
and the credential writer all succeed, `fullLogin` returns `ok`. -/
theorem fullLogin_ok (p : execCredentialPlugin) (env : Env) (tr : Trace) (tok : Token)
    (hp : env.providerToken = Except.ok tok)
    (hcw : env.cacheWrite tok = none)
    (hwr : env.writerWrite tok = none) :
    (fullLogin p env tr).1 = Except.ok () := by
  unfold fullLogin
  rw [hp]
  cases hd : p.disableTokenCache with
  | true => simp [hd, emitCredential, hwr]
  | false => simp [hd, hcw, emitCredential, hwr]

/-- When the cached token is not a usable hit (audience mismatch or
absent token), `resolveWithToken` goes straight to full login. -/
theorem resolveWithToken_not_hit (p : execCredentialPlugin) (env : Env) (now : Nat)
    (t : Token) (tr : Trace)
    (h : ¬(t.resource = targetAudienceOf p.o ∧ t.IsZero = false)) :
    resolveWithToken p env now t tr = fullLogin p env tr := by
  unfold resolveWithToken
  rw [if_neg h]

/-- On a matching, present, expiring token with no refresh token,
`resolveWithToken` goes straight to full login. -/
theorem resolveWithToken_no_refresh_token (p : execCredentialPlugin) (env : Env)
    (now : Nat) (t : Token) (tr : Trace)
    (haud : t.resource = targetAudienceOf p.o) (hz : t.IsZero = false)
    (hw : t.WillExpireIn expirationDelta now = true)
    (hrt : t.refreshToken = "") :
    resolveWithToken p env now t tr = fullLogin p env tr := by
  unfold resolveWithToken
  rw [if_pos ⟨haud, hz⟩, if_neg (by simp [hw]), if_neg (by simp [hrt])]

/-- On the refresh path, a failure of OAuth configuration resolution is
returned as the overall error. -/
theorem resolveWithToken_cfg_error (p : execCredentialPlugin) (env : Env)
    (now : Nat) (t : Token) (tr : Trace) (e : Err)
    (haud : t.resource = targetAudienceOf p.o) (hz : t.IsZero = false)
    (hw : t.WillExpireIn expirationDelta now = true)
    (hrt : t.refreshToken ≠ "")
    (hcfg : env.oauthConfig = Except.error e) :
    resolveWithToken p env now t tr =
      (Except.error ("unable to get oAuthConfig: " ++ e),
       { tr with oauthConfigCalls := tr.oauthConfigCalls + 1 }) := by
  unfold resolveWithToken
  rw [if_pos ⟨haud, hz⟩, if_neg (by simp [hw]), if_pos hrt, hcfg]

/-- On the refresh path, a failure to construct the refresher is
returned as the overall error. -/
theorem resolveWithToken_ctor_error (p : execCredentialPlugin) (env : Env)
    (now : Nat) (t : Token) (tr : Trace) (e : Err)
    (haud : t.resource = targetAudienceOf p.o) (hz : t.IsZero = false)
    (hw : t.WillExpireIn expirationDelta now = true)
    (hrt : t.refreshToken ≠ "")
    (hcfg : env.oauthConfig = Except.ok ())
    (hctor : env.refresherCtor = Except.error e) :
    resolveWithToken p env now t tr =
      (Except.error ("failed to get refresher: " ++ e),
       { tr with oauthConfigCalls := tr.oauthConfigCalls + 1,
                 refresherCtorCalls := tr.refresherCtorCalls + 1 }) := by
  unfold resolveWithToken
  rw [if_pos ⟨haud, hz⟩, if_neg (by simp [hw]), if_pos hrt, hcfg, hctor]

/-- On a successful refresh whose cache write fails, `resolveWithToken`
returns the write error without emitting. -/
theorem resolveWithToken_refresh_ok_write_error (p : execCredentialPlugin) (env : Env)
    (now : Nat) (t : Token) (tr : Trace) (newTok : Token) (e : Err)
    (haud : t.resource = targetAudienceOf p.o) (hz : t.IsZero = false)
    (hw : t.WillExpireIn expirationDelta now = true)
    (hrt : t.refreshToken ≠ "")
    (hcfg : env.oauthConfig = Except.ok ())
    (hctor : env.refresherCtor = Except.ok ())
    (hok : env.refresherToken = Except.ok newTok)
    (hwrite : env.cacheWrite newTok = some e) :
    resolveWithToken p env now t tr =
      (Except.error ("failed to write to store: " ++ e),
       { tr with oauthConfigCalls := tr.oauthConfigCalls + 1,
                 refresherCtorCalls := tr.refresherCtorCalls + 1,
                 refresherCalls := tr.refresherCalls + 1,
                 cacheWrites := tr.cacheWrites ++ [newTok] }) := by
  unfold resolveWithToken
  rw [if_pos ⟨haud, hz⟩, if_neg (by simp [hw]), if_pos hrt, hcfg, hctor, hok]
  simp [hwrite]

/-- With the cache disabled, `Do` is full login on a fresh trace. -/
theorem Do_disabled (p : execCredentialPlugin) (env : Env) (now : Nat)
    (hdc : p.disableTokenCache = true) :
    p.Do env now = fullLogin p env {} := by
  unfold execCredentialPlugin.Do
  rw [hdc]
  simp [resolveWithToken_zero]

/-- With caching enabled, a cache-read failure makes `Do` return the
wrapped read error with nothing but the read traced. -/
theorem Do_read_error (p : execCredentialPlugin) (env : Env) (now : Nat) (e : Err)
    (hdc : p.disableTokenCache = false)
    (hread : env.cacheRead = Except.error e) :
    p.Do env now =
      (Except.error
        ("unable to read from token cache: " ++ p.o.tokenCacheFile ++ ", err: " ++ e),
       { cacheReads := 1 }) := by
  unfold execCredentialPlugin.Do
  rw [hdc, hread]
  simp

/-- `fullLogin` never touches the cache when the cache is disabled, and
never reads it in any case. -/
theorem fullLogin_disabled_no_write (p : execCredentialPlugin) (env : Env) (tr : Trace)
    (hdc : p.disableTokenCache = true) :
    (fullLogin p env tr).2.cacheWrites = tr.cacheWrites ∧
    (fullLogin p env tr).2.cacheReads = tr.cacheReads := by
  unfold fullLogin
  cases hp : env.providerToken with
  | error e => exact ⟨rfl, rfl⟩
  | ok tok => simp [hdc, emitCredential_snd]

/-- `fullLogin` leaves the refresh-path counters and the read counter of
the trace unchanged. -/
theorem fullLogin_trace (p : execCredentialPlugin) (env : Env) (tr : Trace) :
    (fullLogin p env tr).2.refresherCalls = tr.refresherCalls ∧
    (fullLogin p env tr).2.cacheReads = tr.cacheReads ∧
    (fullLogin p env tr).2.oauthConfigCalls = tr.oauthConfigCalls := by
  unfold fullLogin
  cases hp : env.providerToken with
  | error e => exact ⟨rfl, rfl, rfl⟩
  | ok tok =>
    cases hd : p.disableTokenCache with
    | true => simp [hd, emitCredential_snd]
    | false =>
      cases hcw : env.cacheWrite tok with
      | some e => simp [hd, hcw]
      | none => simp [hd, hcw, emitCredential_snd]

/-- If a cache write performed by `fullLogin` fails, `fullLogin` returns
the wrapped write error and emits nothing beyond the incoming trace. -/
theorem fullLogin_write_failure (p : execCredentialPlugin) (env : Env) (tr : Trace)
    (tok : Token) (e : Err)
    (htw : tr.cacheWrites = []) (hte : tr.emitted = [])
    (hmem : tok ∈ (fullLogin p env tr).2.cacheWrites)
    (hfail : env.cacheWrite tok = some e) :
    (∃ msg, (fullLogin p env tr).1 = Except.error msg) ∧
    (fullLogin p env tr).2.emitted = [] := by
  cases hp : env.providerToken with
  | error e2 => simp_all [fullLogin]
  | ok tok2 =>
    cases hd : p.disableTokenCache with
    | true => simp_all [fullLogin, emitCredential_snd]
    | false =>
      cases hcw : env.cacheWrite tok2 with
      | some e3 =>
        refine ⟨⟨"unable to write to token cache: " ++ p.o.tokenCacheFile ++ ", err: " ++ e3, ?_⟩, ?_⟩ <;>
          simp [fullLogin, hp, hd, hcw, hte]
      | none => simp_all [fullLogin, emitCredential_snd]

/-! The claim theorems. -/

/-- C1: for every cached token whose resource equals the target
audience, which is present (non-zero), and whose expiration is more than
60 seconds after the current time, `Do` returns that token unchanged via
the credential writer, invoking neither the refresher nor the token
provider and performing no cache write. -/
theorem C1_fresh_cache_hit_returned_unchanged
    (p : execCredentialPlugin) (env : Env) (now : Nat) (t : Token)
    (hdc : p.disableTokenCache = false)
    (hread : env.cacheRead = Except.ok t)
    (haud : t.resource = targetAudienceOf p.o)
    (hz : t.IsZero = false)
    (hexp : now + expirationDelta < t.expiresOn) :
    (p.Do env now).2.emitted = [t] ∧
    (p.Do env now).2.refresherCalls = 0 ∧
    (p.Do env now).2.oauthConfigCalls = 0 ∧
    (p.Do env now).2.providerCalls = 0 ∧
    (p.Do env now).2.cacheWrites = [] ∧
    (env.writerWrite t = none → (p.Do env now).1 = Except.ok ()) := by
  have hw : t.WillExpireIn expirationDelta now = false := by
    simp only [Token.WillExpireIn, decide_eq_false_iff_not]
    omega
  rw [Do_cache_ok p env now t hdc hread,
    resolveWithToken_fast_path p env now t _ haud hz hw]
  refine ⟨?_, ?_, ?_, ?_, ?_, fun h => emitCredential_fst_ok env t _ h⟩ <;>
    simp [emitCredential_snd]

/-- Witness for C1 on concrete data: the sample fresh cache hit is
emitted unchanged with no collaborator calls. -/
theorem C1_witness :
    (demoPlugin.Do demoEnv 100).2.emitted = [demoToken] ∧
    (demoPlugin.Do demoEnv 100).2.refresherCalls = 0 ∧
    (demoPlugin.Do demoEnv 100).2.oauthConfigCalls = 0 ∧
    (demoPlugin.Do demoEnv 100).2.providerCalls = 0 ∧
    (demoPlugin.Do demoEnv 100).2.cacheWrites = [] ∧
    (demoPlugin.Do demoEnv 100).1 = Except.ok () := by
  have h := C1_fresh_cache_hit_returned_unchanged demoPlugin demoEnv 100 demoToken
    (by decide) rfl (by decide) (by decide) (by decide)
  exact ⟨h.1, h.2.1, h.2.2.1, h.2.2.2.1, h.2.2.2.2.1, h.2.2.2.2.2 rfl⟩

/-- C2: when the refresh path is entered (cached token present, audience
matching, about to expire, refresh token non-empty) and the refresher
call fails, `Do` falls through to the full-login provider; the overall
outcome does not depend on the refresh error, and the run succeeds when
full login, persistence and emission succeed. -/
theorem C2_refresh_failure_falls_back
    (p : execCredentialPlugin) (env : Env) (now : Nat) (t : Token) (e : Err)
    (hdc : p.disableTokenCache = false)
    (hread : env.cacheRead = Except.ok t)
    (haud : t.resource = targetAudienceOf p.o)
    (hz : t.IsZero = false)
    (hw : t.WillExpireIn expirationDelta now = true)
    (hrt : t.refreshToken ≠ "")
    (hcfg : env.oauthConfig = Except.ok ())
    (hctor : env.refresherCtor = Except.ok ())
    (hfail : env.refresherToken = Except.error e) :
    p.Do env now =
      fullLogin p env
        { cacheReads := 1, oauthConfigCalls := 1, refresherCtorCalls := 1,
          refresherCalls := 1 } ∧
    (p.Do env now).2.providerCalls = 1 ∧
    (∀ e2, p.Do { env with refresherToken := Except.error e2 } now = p.Do env now) ∧
    (∀ tok, env.providerToken = Except.ok tok → env.cacheWrite tok = none →
      env.writerWrite tok = none → (p.Do env now).1 = Except.ok ()) := by
  have hmain : p.Do env now =
      fullLogin p env
        { cacheReads := 1, oauthConfigCalls := 1, refresherCtorCalls := 1,
          refresherCalls := 1 } := by
    rw [Do_cache_ok p env now t hdc hread,
      resolveWithToken_refresh_error p env now t _ e haud hz hw hrt hcfg hctor hfail]
  refine ⟨hmain, ?_, ?_, ?_⟩
  · rw [hmain, fullLogin_providerCalls]
  · intro e2
    have h2 : p.Do { env with refresherToken := Except.error e2 } now =
        fullLogin p { env with refresherToken := Except.error e2 }
          { cacheReads := 1, oauthConfigCalls := 1, refresherCtorCalls := 1,
            refresherCalls := 1 } := by
      rw [Do_cache_ok p { env with refresherToken := Except.error e2 } now t hdc hread,
        resolveWithToken_refresh_error p { env with refresherToken := Except.error e2 }
          now t _ e2 haud hz hw hrt hcfg hctor rfl]
    rw [h2, fullLogin_env_refresherToken, hmain]
  · intro tok hp hcw hwr
    rw [hmain]
    exact fullLogin_ok p env _ tok hp hcw hwr

/-- Witness for C2 on concrete data: with a failing refresher and a
succeeding provider, the run still succeeds and the provider is called
exactly once. -/
theorem C2_witness :
    (demoPlugin.Do demoEnvRefreshFail 950).1 = Except.ok () ∧
    (demoPlugin.Do demoEnvRefreshFail 950).2.providerCalls = 1 := by
  have h := C2_refresh_failure_falls_back demoPlugin demoEnvRefreshFail 950 demoToken
    "refresh boom" (by decide) rfl (by decide) (by decide) (by decide) (by decide)
    rfl rfl rfl
  exact ⟨h.2.2.2 demoProviderToken rfl rfl rfl, h.2.1⟩

/-- C3: a cached token whose resource differs from the target audience
is never served; `Do` behaves exactly as on a cache miss and performs a
full login. -/
theorem C3_audience_mismatch_ignores_cache
    (p : execCredentialPlugin) (env : Env) (now : Nat) (t : Token)
    (hdc : p.disableTokenCache = false)
    (hread : env.cacheRead = Except.ok t)
    (hmis : t.resource ≠ targetAudienceOf p.o) :
    p.Do env now = fullLogin p env { cacheReads := 1 } ∧
    p.Do env now = p.Do { env with cacheRead := Except.ok Token.zero } now ∧
    (p.Do env now).2.providerCalls = 1 := by
  have h1 : p.Do env now = fullLogin p env { cacheReads := 1 } := by
    rw [Do_cache_ok p env now t hdc hread,
      resolveWithToken_mismatch p env now t _ hmis]
  have h2 : p.Do { env with cacheRead := Except.ok Token.zero } now =
      fullLogin p env { cacheReads := 1 } := by
    rw [Do_cache_ok p { env with cacheRead := Except.ok Token.zero } now Token.zero hdc rfl,
      resolveWithToken_zero, fullLogin_env_cacheRead]
  refine ⟨h1, h1.trans h2.symm, ?_⟩
  rw [h1, fullLogin_providerCalls]

/-- Witness for C3 on concrete data: an unexpired token for resource `S`
is ignored when resource `R` is requested, and full login runs. -/
theorem C3_witness :
    (demoPlugin.Do demoEnvMismatch 100).2.providerCalls = 1 ∧
    demoPlugin.Do demoEnvMismatch 100 =
      demoPlugin.Do { demoEnvMismatch with cacheRead := Except.ok Token.zero } 100 := by
  have h := C3_audience_mismatch_ignores_cache demoPlugin demoEnvMismatch 100
    demoTokenOtherResource (by decide) rfl (by decide)
  exact ⟨h.2.2, h.2.1⟩

/-- C4: a cached token expiring within 60 seconds of the current time is
never returned directly: `Do` either enters the refresh path (when a
refresh token is present) or performs a full login. -/
theorem C4_expiring_token_never_returned_directly
    (p : execCredentialPlugin) (env : Env) (now : Nat) (t : Token)
    (hdc : p.disableTokenCache = false)
    (hread : env.cacheRead = Except.ok t)
    (hexp : t.expiresOn ≤ now + expirationDelta) :
    (p.Do env now).2.providerCalls = 1 ∨
    ((p.Do env now).2.oauthConfigCalls = 1 ∧ t.refreshToken ≠ "") := by
  have hw : t.WillExpireIn expirationDelta now = true := by
    simp only [Token.WillExpireIn, decide_eq_true_eq]
    exact hexp
  rw [Do_cache_ok p env now t hdc hread]
  by_cases hg : t.resource = targetAudienceOf p.o ∧ t.IsZero = false
  · by_cases hrt : t.refreshToken = ""
    · left
      rw [resolveWithToken_no_refresh_token p env now t _ hg.1 hg.2 hw hrt,
        fullLogin_providerCalls]
    · cases hcfg : env.oauthConfig with
      | error e =>
        right
        rw [resolveWithToken_cfg_error p env now t _ e hg.1 hg.2 hw hrt hcfg]
        exact ⟨rfl, hrt⟩
      | ok u =>
        cases u
        cases hctor : env.refresherCtor with
        | error e =>
          right
          rw [resolveWithToken_ctor_error p env now t _ e hg.1 hg.2 hw hrt hcfg hctor]
          exact ⟨rfl, hrt⟩
        | ok v =>
          cases v
          cases hrf : env.refresherToken with
          | error e =>
            left
            rw [resolveWithToken_refresh_error p env now t _ e hg.1 hg.2 hw hrt hcfg
              hctor hrf, fullLogin_providerCalls]
          | ok newTok =>
            right
            cases hcw : env.cacheWrite newTok with
            | none =>
              rw [resolveWithToken_refresh_ok p env now t _ newTok hg.1 hg.2 hw hrt
                hcfg hctor hrf hcw, emitCredential_snd]
              exact ⟨rfl, hrt⟩
            | some e =>
              rw [resolveWithToken_refresh_ok_write_error p env now t _ newTok e hg.1
                hg.2 hw hrt hcfg hctor hrf hcw]
              exact ⟨rfl, hrt⟩
  · left
    rw [resolveWithToken_not_hit p env now t _ hg, fullLogin_providerCalls]

/-- Witness for C4 on concrete data: at time 950 the sample token
(expiring at 1000) is within the 60-second buffer, so the refresh path
or full login is taken. -/
theorem C4_witness :
    (demoPlugin.Do demoEnv 950).2.providerCalls = 1 ∨
    ((demoPlugin.Do demoEnv 950).2.oauthConfigCalls = 1 ∧
      demoToken.refreshToken ≠ "") :=
  C4_expiring_token_never_returned_directly demoPlugin demoEnv 950 demoToken
    (by decide) rfl (by decide)

/-- C5: for every configuration whose login method is service principal,
managed identity, workload identity or CLI passthrough, `Do` performs no
cache read and no cache write, whatever the environment holds. -/
theorem C5_disabled_methods_no_cache_io (o : Options) (env : Env) (now : Nat)
    (hm : o.loginMethod = LoginMethod.ServicePrincipalLogin ∨
          o.loginMethod = LoginMethod.MSILogin ∨
          o.loginMethod = LoginMethod.WorkloadIdentityLogin ∨
          o.loginMethod = LoginMethod.AzureCLILogin) :
    ((New o).Do env now).2.cacheReads = 0 ∧
    ((New o).Do env now).2.cacheWrites = [] := by
  have hdc : (New o).disableTokenCache = true := by
    rcases hm with h | h | h | h <;> simp [New, h]
  rw [Do_disabled (New o) env now hdc]
  have h := fullLogin_disabled_no_write (New o) env {} hdc
  exact ⟨h.2, h.1⟩

/-- Witness for C5 on concrete data: with managed-identity login, no
cache read and no cache write happen. -/
theorem C5_witness :
    ((New demoOptionsMSI).Do demoEnv 100).2.cacheReads = 0 ∧
    ((New demoOptionsMSI).Do demoEnv 100).2.cacheWrites = [] :=
  C5_disabled_methods_no_cache_io demoOptionsMSI demoEnv 100 (Or.inr (Or.inl rfl))

/-- C6: with caching enabled, a cache-read failure aborts `Do`
immediately: the wrapped read error is returned, no refresh or login is
attempted, nothing is written and no credential is emitted. -/
theorem C6_read_failure_is_fatal (p : execCredentialPlugin) (env : Env) (now : Nat)
    (e : Err)
    (hdc : p.disableTokenCache = false)
    (hread : env.cacheRead = Except.error e) :
    (p.Do env now).1 =
      Except.error
        ("unable to read from token cache: " ++ p.o.tokenCacheFile ++ ", err: " ++ e) ∧
    (p.Do env now).2.oauthConfigCalls = 0 ∧
    (p.Do env now).2.refresherCalls = 0 ∧
    (p.Do env now).2.providerCalls = 0 ∧
    (p.Do env now).2.cacheWrites = [] ∧
    (p.Do env now).2.emitted = [] := by
  rw [Do_read_error p env now e hdc hread]
  exact ⟨rfl, rfl, rfl, rfl, rfl, rfl⟩

/-- Witness for C6 on concrete data: a corrupt cache aborts the run with
the read error and no collaborator calls. -/
theorem C6_witness :
    (demoPlugin.Do demoEnvReadFail 100).1 =
      Except.error "unable to read from token cache: cache.json, err: corrupt" ∧
    (demoPlugin.Do demoEnvReadFail 100).2.providerCalls = 0 ∧
    (demoPlugin.Do demoEnvReadFail 100).2.emitted = [] := by
  have h := C6_read_failure_is_fatal demoPlugin demoEnvReadFail 100 "corrupt"
    (by decide) rfl
  exact ⟨h.1, h.2.2.2.1, h.2.2.2.2.2⟩

/-- C7: when the refresh attempt succeeds and the cache write of the
refreshed token succeeds, `Do` writes exactly the refreshed token to the
cache and emits exactly it; the provider is never invoked. -/
theorem C7_refresh_success_persists_and_emits
    (p : execCredentialPlugin) (env : Env) (now : Nat) (t : Token) (newTok : Token)
    (hdc : p.disableTokenCache = false)
    (hread : env.cacheRead = Except.ok t)
    (haud : t.resource = targetAudienceOf p.o)
    (hz : t.IsZero = false)
    (hw : t.WillExpireIn expirationDelta now = true)
    (hrt : t.refreshToken ≠ "")
    (hcfg : env.oauthConfig = Except.ok ())
    (hctor : env.refresherCtor = Except.ok ())
    (hok : env.refresherToken = Except.ok newTok)
    (hwrite : env.cacheWrite newTok = none) :
    (p.Do env now).2.cacheWrites = [newTok] ∧
    (p.Do env now).2.emitted = [newTok] ∧
    (p.Do env now).2.providerCalls = 0 ∧
    (env.writerWrite newTok = none → (p.Do env now).1 = Except.ok ()) := by
  rw [Do_cache_ok p env now t hdc hread,
    resolveWithToken_refresh_ok p env now t _ newTok haud hz hw hrt hcfg hctor hok
      hwrite]
  refine ⟨?_, ?_, ?_, fun h => emitCredential_fst_ok env newTok _ h⟩ <;>
    simp [emitCredential_snd]

/-- Witness for C7 on concrete data: at time 950 the expiring sample
token is refreshed; the refreshed token is written and emitted. -/
theorem C7_witness :
    (demoPlugin.Do demoEnv 950).2.cacheWrites = [demoRefreshedToken] ∧
    (demoPlugin.Do demoEnv 950).2.emitted = [demoRefreshedToken] ∧
    (demoPlugin.Do demoEnv 950).2.providerCalls = 0 ∧
    (demoPlugin.Do demoEnv 950).1 = Except.ok () := by
  have h := C7_refresh_success_persists_and_emits demoPlugin demoEnv 950 demoToken
    demoRefreshedToken (by decide) rfl (by decide) (by decide) (by decide) (by decide)
    rfl rfl rfl rfl
  exact ⟨h.1, h.2.1, h.2.2.1, h.2.2.2 rfl⟩

/-- If a cache write performed anywhere in `resolveWithToken` fails, the
run returns an error and emits nothing, provided the incoming trace is
clean. -/
theorem resolveWithToken_write_failure (p : execCredentialPlugin) (env : Env)
    (now : Nat) (t : Token) (tr : Trace) (tok : Token) (e : Err)
    (htw : tr.cacheWrites = []) (hte : tr.emitted = [])
    (hmem : tok ∈ (resolveWithToken p env now t tr).2.cacheWrites)
    (hfail : env.cacheWrite tok = some e) :
    (∃ msg, (resolveWithToken p env now t tr).1 = Except.error msg) ∧
    (resolveWithToken p env now t tr).2.emitted = [] := by
  by_cases hg : t.resource = targetAudienceOf p.o ∧ t.IsZero = false
  · by_cases hfast : t.WillExpireIn expirationDelta now = false
    · rw [resolveWithToken_fast_path p env now t tr hg.1 hg.2 hfast,
        emitCredential_snd] at hmem
      simp [htw] at hmem
    · have hw : t.WillExpireIn expirationDelta now = true := by simpa using hfast
      by_cases hrt : t.refreshToken = ""
      · rw [resolveWithToken_no_refresh_token p env now t tr hg.1 hg.2 hw hrt] at hmem ⊢
        exact fullLogin_write_failure p env tr tok e htw hte hmem hfail
      · cases hcfg : env.oauthConfig with
        | error e2 =>
          rw [resolveWithToken_cfg_error p env now t tr e2 hg.1 hg.2 hw hrt hcfg] at hmem
          simp [htw] at hmem
        | ok u =>
          cases u
          cases hctor : env.refresherCtor with
          | error e2 =>
            rw [resolveWithToken_ctor_error p env now t tr e2 hg.1 hg.2 hw hrt hcfg
              hctor] at hmem
            simp [htw] at hmem
          | ok v =>
            cases v
            cases hrf : env.refresherToken with
            | error e2 =>
              rw [resolveWithToken_refresh_error p env now t tr e2 hg.1 hg.2 hw hrt
                hcfg hctor hrf] at hmem ⊢
              exact fullLogin_write_failure p env _ tok e (by simp [htw])
                (by simp [hte]) hmem hfail
            | ok newTok =>
              cases hcw : env.cacheWrite newTok with
              | none =>
                rw [resolveWithToken_refresh_ok p env now t tr newTok hg.1 hg.2 hw hrt
                  hcfg hctor hrf hcw, emitCredential_snd] at hmem
                simp [htw] at hmem
                subst hmem
                rw [hfail] at hcw
                simp at hcw
              | some e2 =>
                rw [resolveWithToken_refresh_ok_write_error p env now t tr newTok e2
                  hg.1 hg.2 hw hrt hcfg hctor hrf hcw]
                exact ⟨⟨_, rfl⟩, by simp [hte]⟩
  · rw [resolveWithToken_not_hit p env now t tr hg] at hmem ⊢
    exact fullLogin_write_failure p env tr tok e htw hte hmem hfail

/-- C8: when a newly acquired token (by refresh or full login) is handed
to the cache and the write fails, `Do` returns an error and emits no
credential: the token is neither silently emitted unpersisted nor
silently dropped. -/
theorem C8_write_failure_aborts (p : execCredentialPlugin) (env : Env) (now : Nat)
    (tok : Token) (e : Err)
    (hmem : tok ∈ (p.Do env now).2.cacheWrites)
    (hfail : env.cacheWrite tok = some e) :
    (∃ msg, (p.Do env now).1 = Except.error msg) ∧
    (p.Do env now).2.emitted = [] := by
  cases hdc : p.disableTokenCache with
  | true =>
    rw [Do_disabled p env now hdc] at hmem ⊢
    exact fullLogin_write_failure p env {} tok e rfl rfl hmem hfail
  | false =>
    cases hread : env.cacheRead with
    | error e2 =>
      rw [Do_read_error p env now e2 hdc hread] at hmem
      simp at hmem
    | ok t =>
      rw [Do_cache_ok p env now t hdc hread] at hmem ⊢
      exact resolveWithToken_write_failure p env now t _ tok e rfl rfl hmem hfail

/-- Witness for C8 on concrete data: the refreshed token is written, the
write fails, the run errors out and nothing is emitted. -/
theorem C8_witness :
    (∃ msg, (demoPlugin.Do demoEnvWriteFail 950).1 = Except.error msg) ∧
    (demoPlugin.Do demoEnvWriteFail 950).2.emitted = [] :=
  C8_write_failure_aborts demoPlugin demoEnvWriteFail 950 demoRefreshedToken
    "disk full" (by decide) rfl

/-- C9: a cached token is treated as present exactly when its access
token is non-empty and its expiration non-zero; an absent token makes
`Do` behave exactly as on the cache-miss sentinel. -/
theorem C9_presence_iff_nonempty_access_and_expiry
    (p : execCredentialPlugin) (env : Env) (now : Nat) (t : Token)
    (hdc : p.disableTokenCache = false)
    (hread : env.cacheRead = Except.ok t) :
    (t.IsZero = false ↔ (t.accessToken ≠ "" ∧ t.expiresOn ≠ 0)) ∧
    (t.IsZero = true →
      p.Do env now = p.Do { env with cacheRead := Except.ok Token.zero } now) := by
  constructor
  · simp [Token.IsZero]
  · intro hz
    have h1 : p.Do env now = fullLogin p env { cacheReads := 1 } := by
      rw [Do_cache_ok p env now t hdc hread, resolveWithToken_not_hit]
      intro hg
      rw [hz] at hg
      exact absurd hg.2 (by simp)
    have h2 : p.Do { env with cacheRead := Except.ok Token.zero } now =
        fullLogin p env { cacheReads := 1 } := by
      rw [Do_cache_ok p { env with cacheRead := Except.ok Token.zero } now Token.zero
        hdc rfl, resolveWithToken_zero, fullLogin_env_cacheRead]
    rw [h1, h2]

/-- Witness for C9 on concrete data: a cached token with an empty access
token is absent, and the run equals the cache-miss run. -/
theorem C9_witness :
    (demoTokenAbsent.IsZero = false ↔
      (demoTokenAbsent.accessToken ≠ "" ∧ demoTokenAbsent.expiresOn ≠ 0)) ∧
    demoPlugin.Do demoEnvAbsent 100 =
      demoPlugin.Do { demoEnvAbsent with cacheRead := Except.ok Token.zero } 100 := by
  have h := C9_presence_iff_nonempty_access_and_expiry demoPlugin demoEnvAbsent 100
    demoTokenAbsent (by decide) rfl
  exact ⟨h.1, h.2 (by decide)⟩

/-- C10: the full-login provider is called at most once per run, never
when a successful refresh supplies the token, and never on the
unexpired-cache-hit path. -/
theorem C10_provider_called_at_most_once (p : execCredentialPlugin) (env : Env)
    (now : Nat) :
    (p.Do env now).2.providerCalls ≤ 1 ∧
    (∀ tk, env.refresherToken = Except.ok tk → (p.Do env now).2.refresherCalls = 1 →
      (p.Do env now).2.providerCalls = 0) ∧
    (∀ t, p.disableTokenCache = false → env.cacheRead = Except.ok t →
      t.resource = targetAudienceOf p.o → t.IsZero = false →
      t.WillExpireIn expirationDelta now = false →
      (p.Do env now).2.providerCalls = 0) := by
  cases hdc : p.disableTokenCache with
  | true =>
    rw [Do_disabled p env now hdc]
    refine ⟨by simp [fullLogin_providerCalls], ?_, ?_⟩
    · intro tk _ hrc
      rw [(fullLogin_trace p env {}).1] at hrc
      simp at hrc
    · intro t hdf _ _ _ _
      exact absurd hdf (by simp)
  | false =>
    cases hread : env.cacheRead with
    | error e =>
      rw [Do_read_error p env now e hdc hread]
      refine ⟨by simp, ?_, ?_⟩
      · intro tk _ hrc
        simp at hrc
      · intro t _ hr _ _ _
        exact absurd hr (by simp)
    | ok t0 =>
      rw [Do_cache_ok p env now t0 hdc hread]
      by_cases hg : t0.resource = targetAudienceOf p.o ∧ t0.IsZero = false
      · by_cases hfast : t0.WillExpireIn expirationDelta now = false
        · rw [resolveWithToken_fast_path p env now t0 _ hg.1 hg.2 hfast]
          refine ⟨by simp [emitCredential_snd], ?_, ?_⟩
          · intro tk _ _
            simp [emitCredential_snd]
          · intro t _ _ _ _ _
            simp [emitCredential_snd]
        · have hw : t0.WillExpireIn expirationDelta now = true := by simpa using hfast
          have h3 : ∀ (C : Prop) t, (Except.ok t0 : Except Err Token) = Except.ok t →
              t.WillExpireIn expirationDelta now = false → C := by
            intro C t hr hf
            injection hr with he
            rw [← he, hw] at hf
            exact absurd hf (by simp)
          by_cases hrt : t0.refreshToken = ""
          · rw [resolveWithToken_no_refresh_token p env now t0 _ hg.1 hg.2 hw hrt]
            refine ⟨by simp [fullLogin_providerCalls], ?_,
              fun t _ hr _ _ hf => h3 _ t hr hf⟩
            intro tk _ hrc
            rw [(fullLogin_trace p env _).1] at hrc
            simp at hrc
          · cases hcfg : env.oauthConfig with
            | error e =>
              rw [resolveWithToken_cfg_error p env now t0 _ e hg.1 hg.2 hw hrt hcfg]
              refine ⟨by simp, ?_, fun t _ hr _ _ hf => h3 _ t hr hf⟩
              intro tk _ hrc
              simp at hrc
            | ok u =>
              cases u
              cases hctor : env.refresherCtor with
              | error e =>
                rw [resolveWithToken_ctor_error p env now t0 _ e hg.1 hg.2 hw hrt hcfg
                  hctor]
                refine ⟨by simp, ?_, fun t _ hr _ _ hf => h3 _ t hr hf⟩
                intro tk _ hrc
                simp at hrc
              | ok v =>
                cases v
                cases hrf : env.refresherToken with
                | error e =>
                  rw [resolveWithToken_refresh_error p env now t0 _ e hg.1 hg.2 hw hrt
                    hcfg hctor hrf]
                  refine ⟨by simp [fullLogin_providerCalls], ?_,
                    fun t _ hr _ _ hf => h3 _ t hr hf⟩
                  intro tk hok _
                  simp at hok
                | ok newTok =>
                  cases hcw : env.cacheWrite newTok with
                  | none =>
                    rw [resolveWithToken_refresh_ok p env now t0 _ newTok hg.1 hg.2 hw
                      hrt hcfg hctor hrf hcw]
                    refine ⟨by simp [emitCredential_snd], ?_,
                      fun t _ hr _ _ hf => h3 _ t hr hf⟩
                    intro tk _ _
                    simp [emitCredential_snd]
                  | some e =>
                    rw [resolveWithToken_refresh_ok_write_error p env now t0 _ newTok e
                      hg.1 hg.2 hw hrt hcfg hctor hrf hcw]
                    refine ⟨by simp, ?_, fun t _ hr _ _ hf => h3 _ t hr hf⟩
                    intro tk _ _
                    simp
      · rw [resolveWithToken_not_hit p env now t0 _ hg]
        refine ⟨by simp [fullLogin_providerCalls], ?_, ?_⟩
        · intro tk _ hrc
          rw [(fullLogin_trace p env _).1] at hrc
          simp at hrc
        · intro t _ hr haudh hzh _
          injection hr with he
          rw [← he] at haudh hzh
          exact absurd ⟨haudh, hzh⟩ hg

/-- Witness for C10 on concrete data: on the fresh cache hit, the
provider-call count is zero, hence at most one. -/
theorem C10_witness :
    (demoPlugin.Do demoEnv 100).2.providerCalls ≤ 1 ∧
    (demoPlugin.Do demoEnv 100).2.providerCalls = 0 := by
  have h := C10_provider_called_at_most_once demoPlugin demoEnv 100
  exact ⟨h.1, h.2.2 demoToken (by decide) rfl (by decide) (by decide) (by decide)⟩

end Kubelogin
